import Mathlib

/-!
Verification development for the fixture-scout reminder pipeline.

The definitions below are a shallow embedding of the Python services:
- `scout_service/app/services/reminder_processing_service.py`
  (reminder generation: clearing old pending reminders in IN-filter
  chunks of 30, creating new reminders in write batches of at most 490),
- `reminder_service/app/services/scheduler_logic.py` and
  `reminder_scheduler_service/app/main.py` (the dispatch scheduler),
- `reminder_service/app/services/status_updater_logic.py`
  (the status reconciler),
- `notification_service/app/main.py` and
  `notification_service/app/services/mock_senders.py` (the channel sender).

The document store is modelled as a `List ReminderDoc`; timestamps are
integers; Firestore queries become list filters; write batches are recorded
as the list of committed batch sizes so batching behaviour is observable.
-/

namespace FixtureScout

/-- A reminder document as stored in the Reminders collection
(`ReminderDoc` in `scout_service/app/models.py`, read back as
`ReminderDocFromDB` in `reminder_service/app/models.py`).  Datetimes are
modelled as integers (e.g. minutes since an epoch).  The optional fields
are the side fields written later by the scheduler and the reconciler. -/
structure ReminderDoc where
  reminder_id : String
  user_id : String
  fixture_id : String
  reason_for_selection : String
  importance_score : Nat
  kickoff_time_utc : Int
  reminder_offset_minutes_before_kickoff : Int
  reminder_mode : String
  custom_message : String
  actual_reminder_time_utc : Int
  status : String
  llm_prompt_used_brief : String
  llm_response_snippet : String
  created_at : Int
  updated_at : Int
  last_notification_outcome : Option String := none
  last_notification_outcome_at_utc : Option Int := none
  last_notification_error_detail : Option String := none
  published_to_topic : Option String := none
deriving DecidableEq, Repr

/-- Python's substring test `sub in s`. -/
def strContains (s sub : String) : Bool :=
  decide (sub.toList <:+: s.toList)

/-- Helper for Python's `s.split(sep)`: splits at leftmost
non-overlapping occurrences of `sep`.  The `fuel` argument makes the
recursion structural; called with `fuel = s.length` it never runs out
because each step consumes at least one character. -/
def pySplitAux (sep : List Char) : Nat → List Char → List (List Char)
  | _, [] => [[]]
  | 0, s => [s]
  | fuel + 1, c :: rest =>
    if !sep.isEmpty && sep.isPrefixOf (c :: rest) then
      [] :: pySplitAux sep fuel ((c :: rest).drop sep.length)
    else
      match pySplitAux sep fuel rest with
      | [] => [[c]]
      | p :: ps => (c :: p) :: ps

/-- Python's `s.split(sep)` for a non-empty separator. -/
def pySplit (s sep : String) : List String :=
  (pySplitAux sep.toList s.toList.length s.toList).map (fun cs => String.mk cs)

/-- Python's `s.split(sep)[-1]`: the last piece of the split (the whole
of `s` when `sep` does not occur). -/
def splitLast (s sep : String) : String :=
  (pySplit s sep).getLastD ""

/-- The payload consumed by the status reconciler
(`NotificationStatusUpdatePayload` in `reminder_service/app/models.py`). -/
structure NotificationStatusUpdatePayload where
  original_reminder_id : String
  user_id : String
  reminder_mode : String
  final_notification_status : String
  timestamp_utc : Int
  error_detail : Option String := none
deriving DecidableEq, Repr

/-- Python truthiness of the optional `error_detail` field: present and
non-empty. -/
def errorDetailPresent (e : Option String) : Bool :=
  match e with
  | none => false
  | some s => !(s == "")

/-- The status written into the Reminders collection by
`process_reminder_status_update` (status_updater_logic.py, lines 34-54).
The code tests `"sent_mock" in status or "delivered" in status`, then
`"failed" in status` (building `failed_notification_<suffix>` and
overwriting it with `failed_notification_delivery` when an error detail
is present), and otherwise falls back to `status_update_<status>`. -/
def newReminderCollectionStatus (p : NotificationStatusUpdatePayload) : String :=
  if strContains p.final_notification_status "sent_mock"
      || strContains p.final_notification_status "delivered" then
    "sent"
  else if strContains p.final_notification_status "failed" then
    if errorDetailPresent p.error_detail then
      "failed_notification_delivery"
    else
      "failed_notification_" ++ splitLast p.final_notification_status "failed_"
  else
    "status_update_" ++ p.final_notification_status

/-- Effect of `process_reminder_status_update` (status_updater_logic.py)
on the reminder store: an unconditional Firestore `update` of the
referenced document.  When the document does not exist the update raises,
the exception is caught, and the function returns `False` leaving the
store unchanged; otherwise the referenced document's status and side
fields are overwritten and the function returns `True`. -/
def process_reminder_status_update (db : List ReminderDoc)
    (p : NotificationStatusUpdatePayload) (now : Int) :
    Bool × List ReminderDoc :=
  if db.any (fun r => r.reminder_id == p.original_reminder_id) then
    (true,
      db.map (fun r =>
        if r.reminder_id == p.original_reminder_id then
          { r with
            status := newReminderCollectionStatus p
            updated_at := now
            last_notification_outcome := some p.final_notification_status
            last_notification_outcome_at_utc := some p.timestamp_utc
            last_notification_error_detail :=
              if errorDetailPresent p.error_detail then
                p.error_detail
              else r.last_notification_error_detail }
        else r))
  else
    (false, db)

/-- The due-reminder query of `fetch_and_process_due_reminders`
(reminder_service scheduler_logic.py, lines 56-62): status `pending`,
limit 200.  The filter on `actual_reminder_time_utc` is commented out in
that file, so no due-time condition is applied. -/
def fetch_due_reminders_query (db : List ReminderDoc) : List ReminderDoc :=
  (db.filter (fun r => r.status == "pending")).take 200

/-- The due-reminder query of `check_and_dispatch_reminders_endpoint`
(reminder_scheduler_service main.py, lines 177-181): status `pending`
and `actual_reminder_time_utc <= now`, limit 200. -/
def check_and_dispatch_query (db : List ReminderDoc) (now : Int) :
    List ReminderDoc :=
  (db.filter (fun r =>
    r.status == "pending" && decide (r.actual_reminder_time_utc ≤ now))).take 200

/-- A sample pending reminder used as concrete input in witnesses and
counterexamples. -/
def sampleReminder : ReminderDoc :=
  { reminder_id := "r1"
    user_id := "u1"
    fixture_id := "f1"
    reason_for_selection := "big match"
    importance_score := 4
    kickoff_time_utc := 1000
    reminder_offset_minutes_before_kickoff := 60
    reminder_mode := "email"
    custom_message := "go"
    actual_reminder_time_utc := 940
    status := "pending"
    llm_prompt_used_brief := "p"
    llm_response_snippet := "s"
    created_at := 0
    updated_at := 0 }

/-- A reminder already in the terminal status `sent`, used to exhibit the
reconciler's overwrite behaviour. -/
def sentReminder : ReminderDoc :=
  { sampleReminder with reminder_id := "r2", status := "sent" }

/-- A status event reporting a failed delivery outcome for `sentReminder`. -/
def failRetryPayload : NotificationStatusUpdatePayload :=
  { original_reminder_id := "r2"
    user_id := "u1"
    reminder_mode := "email"
    final_notification_status := "failed_retry"
    timestamp_utc := 5 }

/-- The document `sentReminder` becomes after the reconciler processes
`failRetryPayload`. -/
def sentReminderAfterFailRetry : ReminderDoc :=
  { sentReminder with
    status := "failed_notification_retry"
    updated_at := 6
    last_notification_outcome := some "failed_retry"
    last_notification_outcome_at_utc := some 5 }

/-- A fixture document as fetched by the generator
(`FixtureDoc` in `scout_service/app/models.py`), restricted to the
fields the reminder pipeline reads. -/
structure FixtureDoc where
  fixture_id : String
  match_datetime_utc : Int
deriving DecidableEq, Repr

/-- One reminder trigger in the generation-service response
(`LLMReminderTrigger` in `scout_service/app/models.py`). -/
structure LLMReminderTrigger where
  reminder_offset_minutes_before_kickoff : Int
  reminder_mode : String
  custom_message : String
deriving DecidableEq, Repr

/-- One selection in the generation-service response
(`LLMSelectedFixtureResponse` in `scout_service/app/models.py`). -/
structure LLMSelectedFixtureResponse where
  fixture_id : String
  reason : String
  importance_score : Nat
  reminder_triggers : List LLMReminderTrigger
deriving DecidableEq, Repr

/-- Firestore's IN-operator cardinality limit used by
`_clear_old_pending_reminders` (reminder_processing_service.py line 342). -/
def MAX_IN_QUERY_VALUES : Nat := 30

/-- Splits a list into consecutive chunks of at most `k` elements, as
`range(0, len(ids), k)` slicing does.  `fuel` makes the recursion
structural; called with `fuel = l.length` it never runs out for `k > 0`. -/
def toChunksAux (k : Nat) : Nat → List String → List (List String)
  | _, [] => []
  | 0, l => [l]
  | fuel + 1, l => l.take k :: toChunksAux k fuel (l.drop k)

/-- The chunks of fixture ids for which `_clear_old_pending_reminders`
issues one IN-filter query each. -/
def fixtureIdChunks (ids : List String) : List (List String) :=
  toChunksAux MAX_IN_QUERY_VALUES ids.length ids

/-- The per-chunk deletion predicate of `_clear_old_pending_reminders`:
same user, fixture id in the chunk, status still `pending`. -/
def isOldPendingReminder (user_id : String) (chunk : List String)
    (r : ReminderDoc) : Bool :=
  r.user_id == user_id && chunk.contains r.fixture_id && r.status == "pending"

/-- Effect of `_clear_old_pending_reminders` (reminder_processing_service.py,
lines 328-414) on the reminder store: for each chunk of at most 30
fixture ids, every reminder of the user with a fixture id in the chunk
and status `pending` is deleted (the write batches used for deletion do
not change which documents end up deleted).  An empty id list returns
early. -/
def clear_old_pending_reminders (db : List ReminderDoc) (user_id : String)
    (fixture_ids_in_llm_input : List String) : List ReminderDoc :=
  if fixture_ids_in_llm_input.isEmpty then db
  else
    (fixtureIdChunks fixture_ids_in_llm_input).foldl
      (fun s chunk => s.filter (fun r => !isOldPendingReminder user_id chunk r))
      db

/-- Python's `s[:n]` character-slice, kernel-computable. -/
def strTake (s : String) (n : Nat) : String :=
  String.mk (s.toList.take n)

/-- The reminder document built for one trigger of one selected match in
`_store_new_reminders` (reminder_processing_service.py lines 441-468).
`reminder_id` stands for the freshly generated uuid. -/
def mkReminderDoc (user_id : String) (m : LLMSelectedFixtureResponse)
    (trigger : LLMReminderTrigger) (fx : FixtureDoc)
    (full_llm_prompt_text llm_response_raw_text : String)
    (reminder_id : String) (created_at_ts : Int) : ReminderDoc :=
  { reminder_id := reminder_id
    user_id := user_id
    fixture_id := m.fixture_id
    reason_for_selection := m.reason
    importance_score := m.importance_score
    kickoff_time_utc := fx.match_datetime_utc
    reminder_offset_minutes_before_kickoff :=
      trigger.reminder_offset_minutes_before_kickoff
    reminder_mode := trigger.reminder_mode
    custom_message := trigger.custom_message
    actual_reminder_time_utc :=
      fx.match_datetime_utc - trigger.reminder_offset_minutes_before_kickoff
    status := "pending"
    llm_prompt_used_brief := strTake full_llm_prompt_text 200 ++ "... (truncated)"
    llm_response_snippet :=
      if llm_response_raw_text == "" then "N/A"
      else strTake llm_response_raw_text 200 ++ "..."
    created_at := created_at_ts
    updated_at := created_at_ts }

/-- Running state of the creation loop of `_store_new_reminders`: the
documents written so far, the counters of the loop, and the sizes of the
write batches committed so far. -/
structure CreateBatchState where
  docs : List ReminderDoc := []
  reminders_created_count : Nat := 0
  items_in_create_batch : Nat := 0
  committed_batches : List Nat := []
deriving DecidableEq, Repr

/-- Inner loop of `_store_new_reminders` over the triggers of one
selected match: create a document per trigger and commit the write batch
whenever it reaches 490 operations.  `mkId` supplies the fresh uuid for
each created document, indexed by the running creation count. -/
def storeTriggersLoop (user_id full_prompt raw : String) (mkId : Nat → String)
    (ts : Int) (m : LLMSelectedFixtureResponse) (fx : FixtureDoc) :
    CreateBatchState → List LLMReminderTrigger → CreateBatchState
  | st, [] => st
  | st, trigger :: rest =>
    let doc := mkReminderDoc user_id m trigger fx full_prompt raw
      (mkId st.reminders_created_count) ts
    let items := st.items_in_create_batch + 1
    let st' : CreateBatchState :=
      { docs := st.docs ++ [doc]
        reminders_created_count := st.reminders_created_count + 1
        items_in_create_batch := if 490 ≤ items then 0 else items
        committed_batches :=
          if 490 ≤ items then st.committed_batches ++ [items]
          else st.committed_batches }
    storeTriggersLoop user_id full_prompt raw mkId ts m fx st' rest

/-- Outer loop of `_store_new_reminders` over the selected matches: a
selection whose fixture id is not in the original fixtures map is
skipped with a warning; otherwise its triggers are processed. -/
def storeMatchesLoop (user_id full_prompt raw : String) (mkId : Nat → String)
    (ts : Int) (original_fixtures_map : List FixtureDoc) :
    CreateBatchState → List LLMSelectedFixtureResponse → CreateBatchState
  | st, [] => st
  | st, m :: rest =>
    match original_fixtures_map.find? (fun f => f.fixture_id == m.fixture_id) with
    | none => storeMatchesLoop user_id full_prompt raw mkId ts
        original_fixtures_map st rest
    | some fx => storeMatchesLoop user_id full_prompt raw mkId ts
        original_fixtures_map
        (storeTriggersLoop user_id full_prompt raw mkId ts m fx st
          m.reminder_triggers)
        rest

/-- `_store_new_reminders` (reminder_processing_service.py lines 417-491):
run the creation loop and commit the final write batch when it is
non-empty. -/
def store_new_reminders (user_id : String)
    (selected_matches : List LLMSelectedFixtureResponse)
    (original_fixtures_map : List FixtureDoc)
    (full_prompt raw : String) (mkId : Nat → String) (ts : Int) :
    CreateBatchState :=
  let st := storeMatchesLoop user_id full_prompt raw mkId ts
    original_fixtures_map {} selected_matches
  if 0 < st.items_in_create_batch then
    { st with committed_batches := st.committed_batches ++ [st.items_in_create_batch] }
  else st

/-- Outcome of one generation pass for one user: either a completed pass
with the number of reminders created, or a hard generation error
(`LLMResponseError`) that aborts the pass. -/
inductive PassOutcome where
  | ok (reminders_created : Nat)
  | llmError (msg : String)
deriving DecidableEq, Repr

/-- `process_fixtures_for_user` (reminder_processing_service.py lines
50-125) restricted to its effect on the reminder store.  The
generation-service call and response parsing
(`_call_llm_and_parse_response`) is passed in as an `Except`: a parse
failure raises `LLMResponseError` before any store write, so the store
is returned unchanged; with no upcoming fixtures the pass returns early;
with an empty selection list nothing is cleared and nothing is written;
otherwise old pending reminders for the in-window fixture ids are
cleared and the new reminders are created. -/
def process_fixtures_for_user (db : List ReminderDoc) (user_id : String)
    (upcoming_fixtures : List FixtureDoc)
    (llm_parse_result : Except String (List LLMSelectedFixtureResponse))
    (full_prompt raw : String) (mkId : Nat → String) (ts : Int) :
    PassOutcome × List ReminderDoc :=
  if upcoming_fixtures.isEmpty then (.ok 0, db)
  else
    match llm_parse_result with
    | .error e => (.llmError e, db)
    | .ok selected =>
      if selected.isEmpty then (.ok 0, db)
      else
        let cleared := clear_old_pending_reminders db user_id
          (upcoming_fixtures.map (fun f => f.fixture_id))
        let st := store_new_reminders user_id selected upcoming_fixtures
          full_prompt raw mkId ts
        (.ok st.reminders_created_count, cleared ++ st.docs)

/-- The generation-independent content of a reminder document: every
field except the generator-assigned uuid and the creation timestamps.
Two generation passes over the same input produce reminders with equal
content even though ids and timestamps differ. -/
structure ReminderContent where
  user_id : String
  fixture_id : String
  reason_for_selection : String
  importance_score : Nat
  kickoff_time_utc : Int
  reminder_offset_minutes_before_kickoff : Int
  reminder_mode : String
  custom_message : String
  actual_reminder_time_utc : Int
  status : String
  llm_prompt_used_brief : String
  llm_response_snippet : String
  last_notification_outcome : Option String
  last_notification_outcome_at_utc : Option Int
  last_notification_error_detail : Option String
  published_to_topic : Option String
deriving DecidableEq, Repr

/-- Projects a reminder document to its generation-independent content. -/
def content (r : ReminderDoc) : ReminderContent :=
  { user_id := r.user_id
    fixture_id := r.fixture_id
    reason_for_selection := r.reason_for_selection
    importance_score := r.importance_score
    kickoff_time_utc := r.kickoff_time_utc
    reminder_offset_minutes_before_kickoff :=
      r.reminder_offset_minutes_before_kickoff
    reminder_mode := r.reminder_mode
    custom_message := r.custom_message
    actual_reminder_time_utc := r.actual_reminder_time_utc
    status := r.status
    llm_prompt_used_brief := r.llm_prompt_used_brief
    llm_response_snippet := r.llm_response_snippet
    last_notification_outcome := r.last_notification_outcome
    last_notification_outcome_at_utc := r.last_notification_outcome_at_utc
    last_notification_error_detail := r.last_notification_error_detail
    published_to_topic := r.published_to_topic }

/-- A list of `n` distinct fixture ids, used as concrete input for the
chunking properties. -/
def mkFixtureIds (n : Nat) : List String :=
  (List.range n).map (fun i => String.mk (List.replicate i 'a'))

/-- A sample reminder trigger for concrete generator inputs. -/
def sampleTrigger : LLMReminderTrigger :=
  { reminder_offset_minutes_before_kickoff := 60
    reminder_mode := "email"
    custom_message := "m" }

/-- A selection of the sample fixture carrying `n` identical triggers,
so a generation pass over it creates exactly `n` reminders. -/
def manyTriggerSelection (n : Nat) : LLMSelectedFixtureResponse :=
  { fixture_id := "f1", reason := "r", importance_score := 3
    reminder_triggers := List.replicate n sampleTrigger }

/-- A sample in-window fixture. -/
def sampleFixture : FixtureDoc :=
  { fixture_id := "f1", match_datetime_utc := 1000 }

/-- One step of the write-batch counters of `_store_new_reminders`:
increment the op count and commit (recording the batch size and
resetting the count) when it reaches 490. -/
def batchStep (s : Nat × List Nat) : Nat × List Nat :=
  if 490 ≤ s.1 + 1 then (0, s.2 ++ [s.1 + 1]) else (s.1 + 1, s.2)

/-- `n` iterations of the write-batch counter step. -/
def batchIter : Nat → Nat × List Nat → Nat × List Nat
  | 0, s => s
  | n + 1, s => batchIter n (batchStep s)

/-- The number of reminder documents a generation pass creates: the
triggers of every selection whose fixture id resolves in the original
fixtures map (selections with unknown fixture ids are skipped). -/
def validTriggerCount (original_fixtures_map : List FixtureDoc) :
    List LLMSelectedFixtureResponse → Nat
  | [] => 0
  | m :: rest =>
    (match original_fixtures_map.find? (fun f => f.fixture_id == m.fixture_id) with
     | none => 0
     | some _ => m.reminder_triggers.length)
      + validTriggerCount original_fixtures_map rest

/-- Result of fetching and validating the owning user of a reminder in
the scheduler loop (scheduler_logic.py lines 113-142): the document may
be missing, fail `UserDocFromDB` validation, or yield contact data. -/
inductive UserFetchResult where
  | notFound
  | invalidData (err : String)
  | valid (email : String) (phone_number : Option String)
deriving DecidableEq, Repr

/-- The dispatch message the scheduler publishes for a due reminder
(`notification_request_data` in scheduler_logic.py lines 144-153). -/
structure NotificationRequestData where
  original_reminder_id : String
  user_id : String
  fixture_id : String
  contact_email : Option String
  contact_phone : Option String
  message_content : String
  reminder_mode : String
  kickoff_time_utc : Int
deriving DecidableEq, Repr

/-- External collaborators of one scheduler invocation: the user store,
the configured topic ids, whether a project id is configured, and the
outcome of each publish attempt. -/
structure SchedulerEnv where
  users : String → UserFetchResult
  email_topic_id : String
  phone_mock_topic_id : String
  project_id_configured : Bool
  publish_ok : NotificationRequestData → Bool

/-- Builds the dispatch message for a reminder and its user's contact
data, as scheduler_logic.py lines 144-153 do (an empty email is falsy in
Python and becomes `None`). -/
def build_notification_request (r : ReminderDoc) (email : String)
    (phone : Option String) : NotificationRequestData :=
  { original_reminder_id := r.reminder_id
    user_id := r.user_id
    fixture_id := r.fixture_id
    contact_email := if email == "" then none else some email
    contact_phone := phone
    message_content := r.custom_message
    reminder_mode := r.reminder_mode
    kickoff_time_utc := r.kickoff_time_utc }

/-- The topic the scheduler publishes to for a delivery mode
(scheduler_logic.py lines 155-159): `email` and `phone_call_mock` have
topics, any other mode has none. -/
def target_topic_for_mode (env : SchedulerEnv) (mode : String) : Option String :=
  if mode == "email" then some env.email_topic_id
  else if mode == "phone_call_mock" then some env.phone_mock_topic_id
  else none

/-- The single status transition one scheduler invocation performs for
one selected reminder. -/
structure ReminderProcessResult where
  reminder_id : String
  new_status : String
  published_to_topic : Option String
deriving DecidableEq, Repr

/-- Per-reminder processing of `fetch_and_process_due_reminders`
(scheduler_logic.py lines 108-199): resolve the user (missing →
`failed_user_not_found`, invalid → `failed_invalid_user_data`), resolve
the topic for the delivery mode (unknown → `failed_unknown_mode`), guard
the project configuration (`failed_config_error`), then publish
(success → `queued_for_notification` recording the topic, failure →
`failed_queueing`). -/
def process_one_due_reminder (env : SchedulerEnv) (r : ReminderDoc) :
    ReminderProcessResult :=
  match env.users r.user_id with
  | .notFound =>
    { reminder_id := r.reminder_id, new_status := "failed_user_not_found"
      published_to_topic := none }
  | .invalidData _ =>
    { reminder_id := r.reminder_id, new_status := "failed_invalid_user_data"
      published_to_topic := none }
  | .valid email phone =>
    match target_topic_for_mode env r.reminder_mode with
    | none =>
      { reminder_id := r.reminder_id, new_status := "failed_unknown_mode"
        published_to_topic := none }
    | some topic =>
      if !env.project_id_configured then
        { reminder_id := r.reminder_id, new_status := "failed_config_error"
          published_to_topic := none }
      else if env.publish_ok (build_notification_request r email phone) then
        { reminder_id := r.reminder_id, new_status := "queued_for_notification"
          published_to_topic := some topic }
      else
        { reminder_id := r.reminder_id, new_status := "failed_queueing"
          published_to_topic := none }

/-- The scheduler loop over the selected batch: each reminder is
processed in turn; failure branches `continue` to the next reminder, so
every selected reminder yields exactly one result. -/
def process_due_reminders_batch (env : SchedulerEnv)
    (rs : List ReminderDoc) : List ReminderProcessResult :=
  rs.map (process_one_due_reminder env)

/-- The dispatch-message payload the channel sender consumes
(`PubSubMessageData` in notification_service models.py). -/
structure PubSubMessageData where
  original_reminder_id : String
  user_id : String
  fixture_id : String
  contact_email : Option String
  contact_phone : Option String
  message_content : String
  reminder_mode : String
  kickoff_time_utc : Option String
deriving DecidableEq, Repr

/-- A Python exception escaping a processing step of the sender, split
by the two handlers of `process_single_notification`: `ValueError` and
any other `Exception`. -/
inductive PyExc where
  | valueError (msg : String)
  | otherError (msg : String)
deriving DecidableEq, Repr

/-- Outcome of each fallible step of `process_single_notification`
(notification_service main.py lines 191-264), in execution order:
the initial `processing` log write, the sender lookup (`get_sender`
raises `ValueError` on an unsupported mode), the mode-specific `send`
returning (success, outcome string), and the log update with the send
outcome.  `status_publish_configured` models the guard at the top of
`_publish_status_update` (publisher client, project id and status topic
all present). -/
structure SenderSteps where
  initial_log : Except PyExc Nat
  get_sender : Except PyExc Unit
  send : Except PyExc (Bool × String)
  update_log : Except PyExc Unit
  status_publish_configured : Bool
deriving Repr

/-- The status event published to the status-update topic
(`status_update_payload` in `_publish_status_update`). -/
structure StatusEventMsg where
  original_reminder_id : String
  user_id : String
  reminder_mode : String
  final_notification_status : String
  error_detail : Option String
deriving DecidableEq, Repr

/-- Builds the status event for a payload, outcome and error detail. -/
def mkStatusEvent (payload : PubSubMessageData) (status : String)
    (err : Option String) : StatusEventMsg :=
  { original_reminder_id := payload.original_reminder_id
    user_id := payload.user_id
    reminder_mode := payload.reminder_mode
    final_notification_status := status
    error_detail := err }

/-- The status and error detail a caught exception produces
(the two `except` clauses of `process_single_notification`). -/
def exc_result (e : PyExc) : String × Option String :=
  match e with
  | .valueError m => ("failed_invalid_request_data", some m)
  | .otherError m => ("failed_internal_service_error", some m)

/-- `_publish_status_update`: publishes one status event when the
publisher client and configuration are present, otherwise logs and
returns without publishing (publish transport errors are caught
internally and do not escape). -/
def publish_status_update (configured : Bool) (payload : PubSubMessageData)
    (status : String) (err : Option String) : List StatusEventMsg :=
  if configured then [mkStatusEvent payload status err] else []

/-- Observable outcome of `process_single_notification`: the events
published to the status channel and the final outcome string. -/
structure ProcessNotificationResult where
  published : List StatusEventMsg
  final_send_status_msg : String
deriving DecidableEq, Repr

/-- `process_single_notification` (notification_service main.py lines
191-264): the try-body runs the four steps in order; a `ValueError`
sets the outcome `failed_invalid_request_data`, any other exception sets
`failed_internal_service_error` (an exception in the log update after a
successful send overwrites the send outcome); the `finally` block then
publishes the outcome unconditionally.  The side log writes cannot
affect the published event, so they are not tracked here. -/
def process_single_notification (steps : SenderSteps)
    (payload : PubSubMessageData) : ProcessNotificationResult :=
  let outcome : String × Option String :=
    match steps.initial_log with
    | .error e => exc_result e
    | .ok _ =>
      match steps.get_sender with
      | .error e => exc_result e
      | .ok _ =>
        match steps.send with
        | .error e => exc_result e
        | .ok (_, msg) =>
          match steps.update_log with
          | .error e => exc_result e
          | .ok _ => (msg, none)
  { published := publish_status_update steps.status_publish_configured
      payload outcome.1 outcome.2
    final_send_status_msg := outcome.1 }

/-- `MockEmailSender.send` (mock_senders.py): failure with outcome
`failed_no_email_address` when the payload has no email, success with
outcome `sent_mock_email` otherwise. -/
def mock_email_send (payload : PubSubMessageData) : Bool × String :=
  match payload.contact_email with
  | none => (false, "failed_no_email_address")
  | some e =>
    if e == "" then (false, "failed_no_email_address")
    else (true, "sent_mock_email")

/-- After the reconciler processes an event, every reminder bearing the
event's reminder id carries the classified status and the verbatim
outcome string in its side field, whatever its previous values. -/
theorem reconciler_update_fields (db : List ReminderDoc)
    (p : NotificationStatusUpdatePayload) (now : Int) :
    ∀ r ∈ (process_reminder_status_update db p now).2,
      r.reminder_id = p.original_reminder_id →
      r.status = newReminderCollectionStatus p
        ∧ r.last_notification_outcome = some p.final_notification_status := by
  intro r hr hid
  unfold process_reminder_status_update at hr
  split at hr
  · obtain ⟨r0, hr0, heq⟩ := List.mem_map.mp hr
    by_cases hb : (r0.reminder_id == p.original_reminder_id) = true
    · rw [if_pos hb] at heq
      rw [← heq]
      exact ⟨rfl, rfl⟩
    · rw [if_neg hb] at heq
      subst heq
      exact absurd (beq_iff_eq.mpr hid) hb
  · rename_i hany
    have : ∃ x ∈ db, (fun r => r.reminder_id == p.original_reminder_id) x = true :=
      ⟨r, hr, beq_iff_eq.mpr hid⟩
    exact absurd (List.any_eq_true.mpr this) hany

/-- C2 counterexample: the reconciler tests for the substring
"sent_mock", not "sent", so the outcome string "sent" (which contains
"sent") classifies to "status_update_sent" rather than "sent"; and
"failed_no_email_address" without an accompanying error detail
classifies to "failed_notification_no_email_address", not to
"failed_notification_delivery" as the claim states. -/
theorem reconciler_sent_substring_counterexample :
    strContains "sent" "sent" = true
    ∧ newReminderCollectionStatus
        { original_reminder_id := "r1", user_id := "u1",
          reminder_mode := "email", final_notification_status := "sent",
          timestamp_utc := 0 } = "status_update_sent"
    ∧ strContains "failed_no_email_address" "failed" = true
    ∧ newReminderCollectionStatus
        { original_reminder_id := "r1", user_id := "u1",
          reminder_mode := "email",
          final_notification_status := "failed_no_email_address",
          timestamp_utc := 0 } = "failed_notification_no_email_address" := by
  decide

/-- C2 (amended): outcome classification of the status reconciler.  An
outcome containing "sent_mock" or "delivered" classifies to "sent"; an
outcome containing "failed" classifies to "failed_notification_delivery"
when a non-empty error detail accompanies the event and otherwise to
"failed_notification_" followed by the text after the last "failed_";
any other outcome classifies to "status_update_" followed by the
verbatim outcome.  In particular "sent_mock_email" maps to "sent",
"failed_no_email_address" maps to "failed_notification_no_email_address"
(or "failed_notification_delivery" with an error detail), and
"weird_new_outcome" maps to "status_update_weird_new_outcome".  The
original outcome string is always preserved in the reminder's
`last_notification_outcome` side field. -/
theorem reconciler_outcome_classification (p : NotificationStatusUpdatePayload) :
    ((strContains p.final_notification_status "sent_mock"
        || strContains p.final_notification_status "delivered") = true →
      newReminderCollectionStatus p = "sent")
    ∧ ((strContains p.final_notification_status "sent_mock"
        || strContains p.final_notification_status "delivered") = false →
       strContains p.final_notification_status "failed" = true →
      newReminderCollectionStatus p =
        if errorDetailPresent p.error_detail then "failed_notification_delivery"
        else "failed_notification_" ++ splitLast p.final_notification_status "failed_")
    ∧ ((strContains p.final_notification_status "sent_mock"
        || strContains p.final_notification_status "delivered") = false →
       strContains p.final_notification_status "failed" = false →
      newReminderCollectionStatus p =
        "status_update_" ++ p.final_notification_status)
    ∧ newReminderCollectionStatus
        { original_reminder_id := "r", user_id := "u", reminder_mode := "email",
          final_notification_status := "sent_mock_email", timestamp_utc := 0 } = "sent"
    ∧ newReminderCollectionStatus
        { original_reminder_id := "r", user_id := "u", reminder_mode := "email",
          final_notification_status := "failed_no_email_address",
          timestamp_utc := 0 } = "failed_notification_no_email_address"
    ∧ newReminderCollectionStatus
        { original_reminder_id := "r", user_id := "u", reminder_mode := "email",
          final_notification_status := "failed_no_email_address",
          timestamp_utc := 0, error_detail := some "no address on file" }
        = "failed_notification_delivery"
    ∧ newReminderCollectionStatus
        { original_reminder_id := "r", user_id := "u", reminder_mode := "email",
          final_notification_status := "weird_new_outcome", timestamp_utc := 0 }
        = "status_update_weird_new_outcome"
    ∧ (∀ (db : List ReminderDoc) (now : Int),
        ∀ r ∈ (process_reminder_status_update db p now).2,
          r.reminder_id = p.original_reminder_id →
          r.last_notification_outcome = some p.final_notification_status) := by
  refine ⟨?_, ?_, ?_, by decide, by decide, by decide, by decide, ?_⟩
  · intro h
    simp [newReminderCollectionStatus, h]
  · intro h1 h2
    simp [newReminderCollectionStatus, h1, h2]
  · intro h1 h2
    simp [newReminderCollectionStatus, h1, h2]
  · intro db now r hr hid
    exact (reconciler_update_fields db p now r hr hid).2

/-- Witness for the amended outcome-classification theorem at the
concrete outcome "sent_mock_email". -/
theorem reconciler_outcome_classification_witness :
    newReminderCollectionStatus
      { original_reminder_id := "r", user_id := "u", reminder_mode := "email",
        final_notification_status := "sent_mock_email", timestamp_utc := 0 }
      = "sent" :=
  (reconciler_outcome_classification
    { original_reminder_id := "r", user_id := "u", reminder_mode := "email",
      final_notification_status := "sent_mock_email", timestamp_utc := 0 }).1
    (by decide)

/-- C3 counterexample: the due-reminder query of
`fetch_and_process_due_reminders` (reminder_service scheduler_logic.py)
has the `actual_reminder_time_utc <= now` filter commented out, so at
`now = 0` it selects `sampleReminder` even though that reminder's
trigger instant 940 is in the future. -/
theorem scheduler_due_filter_counterexample :
    fetch_due_reminders_query [sampleReminder] = [sampleReminder]
    ∧ sampleReminder.status = "pending"
    ∧ ¬ sampleReminder.actual_reminder_time_utc ≤ 0 := by
  decide

/-- C3 (amended): both scheduler implementations select at most 200
reminders and every selected reminder has status "pending".  The
`reminder_scheduler_service` endpoint additionally selects only
reminders whose trigger instant is at most the current time, while the
`reminder_service` scheduler applies no due-time condition. -/
theorem scheduler_selection_bounds (db : List ReminderDoc) (now : Int) :
    (fetch_due_reminders_query db).length ≤ 200
    ∧ (∀ r ∈ fetch_due_reminders_query db, r.status = "pending")
    ∧ (check_and_dispatch_query db now).length ≤ 200
    ∧ (∀ r ∈ check_and_dispatch_query db now,
        r.status = "pending" ∧ r.actual_reminder_time_utc ≤ now) := by
  refine ⟨?_, ?_, ?_, ?_⟩
  · calc (fetch_due_reminders_query db).length
        = min 200 (db.filter (fun r => r.status == "pending")).length := by
          simp [fetch_due_reminders_query, List.length_take]
      _ ≤ 200 := min_le_left _ _
  · intro r hr
    have hf := List.mem_of_mem_take hr
    have := (List.mem_filter.mp hf).2
    simpa using this
  · calc (check_and_dispatch_query db now).length
        = min 200 (db.filter (fun r =>
            r.status == "pending"
              && decide (r.actual_reminder_time_utc ≤ now))).length := by
          simp [check_and_dispatch_query, List.length_take]
      _ ≤ 200 := min_le_left _ _
  · intro r hr
    have hf := List.mem_of_mem_take hr
    have := (List.mem_filter.mp hf).2
    simp only [Bool.and_eq_true, beq_iff_eq, decide_eq_true_eq] at this
    exact this

/-- Witness for the scheduler selection bounds at a concrete store. -/
theorem scheduler_selection_bounds_witness :
    sampleReminder.status = "pending"
    ∧ sampleReminder.actual_reminder_time_utc ≤ 1000 :=
  (scheduler_selection_bounds [sampleReminder] 1000).2.2.2 sampleReminder
    (by decide)

/-- C4 counterexample: processing a StatusEvent whose referenced
Reminder is already in the terminal status "sent" silently overwrites
that status: the reminder comes out with status
"failed_notification_retry". -/
theorem reconciler_overwrites_terminal_counterexample :
    sentReminder.status = "sent"
    ∧ (process_reminder_status_update [sentReminder] failRetryPayload 6).2.map
        (fun r => r.status) = ["failed_notification_retry"] := by
  decide

/-- C4 (amended): the reconciler's update is unconditional.  After
`process_reminder_status_update`, every reminder bearing the event's
reminder id carries the status classified from the event's outcome,
whatever its previous status was — including terminal statuses, which
are silently overwritten rather than left unchanged. -/
theorem reconciler_unconditional_overwrite (db : List ReminderDoc)
    (p : NotificationStatusUpdatePayload) (now : Int) :
    ∀ r ∈ (process_reminder_status_update db p now).2,
      r.reminder_id = p.original_reminder_id →
      r.status = newReminderCollectionStatus p :=
  fun r hr hid => (reconciler_update_fields db p now r hr hid).1

/-- Witness for the unconditional-overwrite theorem: the concrete
terminal reminder `sentReminder` ends up with the status classified from
`failRetryPayload`. -/
theorem reconciler_unconditional_overwrite_witness :
    sentReminderAfterFailRetry.status = newReminderCollectionStatus failRetryPayload :=
  reconciler_unconditional_overwrite [sentReminder] failRetryPayload 6
    sentReminderAfterFailRetry (by decide) (by decide)

/-- Joining the chunks gives back the original id list. -/
theorem flatten_toChunksAux (k : Nat) (hk : 0 < k) :
    ∀ (fuel : Nat) (l : List String), l.length ≤ fuel →
      (toChunksAux k fuel l).flatten = l := by
  intro fuel
  induction fuel with
  | zero =>
    intro l hl
    have : l = [] := List.eq_nil_of_length_eq_zero (Nat.le_zero.mp hl)
    subst this
    rfl
  | succ n ih =>
    intro l hl
    cases l with
    | nil => rfl
    | cons x xs =>
      have hdrop : ((x :: xs).drop k).length ≤ n := by
        rw [List.length_drop]
        simp only [List.length_cons] at hl ⊢
        omega
      calc (toChunksAux k (n + 1) (x :: xs)).flatten
          = (x :: xs).take k ++ (toChunksAux k n ((x :: xs).drop k)).flatten := by
            rfl
        _ = (x :: xs).take k ++ (x :: xs).drop k := by rw [ih _ hdrop]
        _ = x :: xs := List.take_append_drop _ _

/-- Every chunk holds at most `k` ids. -/
theorem toChunksAux_size (k : Nat) (hk : 0 < k) :
    ∀ (fuel : Nat) (l : List String), l.length ≤ fuel →
      ∀ c ∈ toChunksAux k fuel l, c.length ≤ k := by
  intro fuel
  induction fuel with
  | zero =>
    intro l hl c hc
    have : l = [] := List.eq_nil_of_length_eq_zero (Nat.le_zero.mp hl)
    subst this
    simp [toChunksAux] at hc
  | succ n ih =>
    intro l hl c hc
    cases l with
    | nil => simp [toChunksAux] at hc
    | cons x xs =>
      have hdrop : ((x :: xs).drop k).length ≤ n := by
        rw [List.length_drop]
        simp only [List.length_cons] at hl ⊢
        omega
      rcases List.mem_cons.mp hc with hc | hc
      · subst hc
        rw [List.length_take]
        exact inf_le_left
      · exact ih _ hdrop c hc

/-- Matching some chunk of a chunk list is matching its join. -/
theorem any_contains_flatten (x : String) (cs : List (List String)) :
    cs.any (fun c => c.contains x) = cs.flatten.contains x := by
  induction cs with
  | nil => simp
  | cons c rest ih => simp_all

/-- The deletion predicate distributes over chunk lists: matching any
chunk is matching the joined id list. -/
theorem any_isOldPendingReminder (u : String) (r : ReminderDoc) :
    ∀ cs : List (List String),
      cs.any (fun c => isOldPendingReminder u c r)
        = isOldPendingReminder u cs.flatten r := by
  intro cs
  cases hu : (r.user_id == u)
  · simp [isOldPendingReminder, hu]
  · cases hs : (r.status == "pending")
    · simp [isOldPendingReminder, hu, hs]
    · simp only [isOldPendingReminder, hu, hs, Bool.true_and, Bool.and_true]
      simpa using any_contains_flatten r.fixture_id cs

/-- Folding the per-chunk filters over the store filters by the
disjunction over all chunks. -/
theorem foldl_filter_chunks (u : String) :
    ∀ (cs : List (List String)) (db : List ReminderDoc),
      cs.foldl (fun s chunk =>
          s.filter (fun r => !isOldPendingReminder u chunk r)) db
        = db.filter (fun r => !cs.any (fun c => isOldPendingReminder u c r)) := by
  intro cs
  induction cs with
  | nil =>
    intro db
    simp
  | cons c rest ih =>
    intro db
    calc (c :: rest).foldl (fun s chunk =>
            s.filter (fun r => !isOldPendingReminder u chunk r)) db
        = rest.foldl (fun s chunk =>
            s.filter (fun r => !isOldPendingReminder u chunk r))
            (db.filter (fun r => !isOldPendingReminder u c r)) := rfl
      _ = (db.filter (fun r => !isOldPendingReminder u c r)).filter
            (fun r => !rest.any (fun ch => isOldPendingReminder u ch r)) := ih _
      _ = db.filter (fun r => !(c :: rest).any (fun ch => isOldPendingReminder u ch r)) := by
          rw [List.filter_filter]
          apply List.filter_congr
          intro r _
          cases h1 : isOldPendingReminder u c r <;>
            cases h2 : rest.any (fun ch => isOldPendingReminder u ch r) <;>
              simp [h1, h2]

/-- The chunked deletion of `_clear_old_pending_reminders` deletes
exactly the user's pending reminders whose fixture id is in the full
id list. -/
theorem clear_old_pending_reminders_eq_filter (db : List ReminderDoc)
    (u : String) (ids : List String) :
    clear_old_pending_reminders db u ids
      = db.filter (fun r => !isOldPendingReminder u ids r) := by
  unfold clear_old_pending_reminders
  by_cases h : ids.isEmpty
  · rw [if_pos h]
    have hnil : ids = [] := List.isEmpty_iff.mp h
    subst hnil
    have : ∀ r ∈ db, (!isOldPendingReminder u ([] : List String) r) = true := by
      intro r _
      simp [isOldPendingReminder]
    exact (List.filter_eq_self.mpr this).symm
  · rw [if_neg h]
    rw [foldl_filter_chunks]
    apply List.filter_congr
    intro r _
    rw [any_isOldPendingReminder]
    rw [fixtureIdChunks, flatten_toChunksAux MAX_IN_QUERY_VALUES (by decide) ids.length ids le_rfl]

/-- Iterating the batch counter splits over sums. -/
theorem batchIter_add (a b : Nat) :
    ∀ s : Nat × List Nat, batchIter (a + b) s = batchIter b (batchIter a s) := by
  induction a with
  | zero => intro s; rw [Nat.zero_add]; rfl
  | succ n ih =>
    intro s
    have h : n + 1 + b = (n + b) + 1 := by omega
    rw [h]
    exact ih (batchStep s)

/-- The write-batch counters of the trigger loop evolve by one
`batchStep` per trigger, independently of the documents created. -/
theorem storeTriggersLoop_counters (u p raw : String) (mkId : Nat → String)
    (ts : Int) (m : LLMSelectedFixtureResponse) (fx : FixtureDoc) :
    ∀ (trigs : List LLMReminderTrigger) (st : CreateBatchState),
      ((storeTriggersLoop u p raw mkId ts m fx st trigs).items_in_create_batch,
        (storeTriggersLoop u p raw mkId ts m fx st trigs).committed_batches)
        = batchIter trigs.length (st.items_in_create_batch, st.committed_batches) := by
  intro trigs
  induction trigs with
  | nil => intro st; rfl
  | cons t rest ih =>
    intro st
    simp only [storeTriggersLoop]
    rw [ih, List.length_cons, Nat.add_comm rest.length 1, batchIter_add]
    congr 1
    dsimp only [batchIter, batchStep]
    by_cases h : 490 ≤ st.items_in_create_batch + 1
    · simp [h]
    · simp [h]

/-- The trigger loop creates one document per trigger. -/
theorem storeTriggersLoop_created (u p raw : String) (mkId : Nat → String)
    (ts : Int) (m : LLMSelectedFixtureResponse) (fx : FixtureDoc) :
    ∀ (trigs : List LLMReminderTrigger) (st : CreateBatchState),
      (storeTriggersLoop u p raw mkId ts m fx st trigs).reminders_created_count
        = st.reminders_created_count + trigs.length := by
  intro trigs
  induction trigs with
  | nil => intro st; rfl
  | cons t rest ih =>
    intro st
    simp only [storeTriggersLoop]
    rw [ih, List.length_cons]
    dsimp only
    omega

/-- The write-batch counters of the whole creation loop evolve by one
`batchStep` per valid trigger. -/
theorem storeMatchesLoop_counters (u p raw : String) (mkId : Nat → String)
    (ts : Int) (fixtures : List FixtureDoc) :
    ∀ (sels : List LLMSelectedFixtureResponse) (st : CreateBatchState),
      ((storeMatchesLoop u p raw mkId ts fixtures st sels).items_in_create_batch,
        (storeMatchesLoop u p raw mkId ts fixtures st sels).committed_batches)
        = batchIter (validTriggerCount fixtures sels)
            (st.items_in_create_batch, st.committed_batches) := by
  intro sels
  induction sels with
  | nil => intro st; rfl
  | cons m rest ih =>
    intro st
    cases hf : fixtures.find? (fun f => f.fixture_id == m.fixture_id) with
    | none =>
      simp only [storeMatchesLoop, hf, validTriggerCount, Nat.zero_add]
      exact ih st
    | some fx =>
      simp only [storeMatchesLoop, hf, validTriggerCount]
      rw [batchIter_add]
      rw [← storeTriggersLoop_counters u p raw mkId ts m fx m.reminder_triggers st]
      exact ih _

/-- The creation loop creates one document per valid trigger. -/
theorem storeMatchesLoop_created (u p raw : String) (mkId : Nat → String)
    (ts : Int) (fixtures : List FixtureDoc) :
    ∀ (sels : List LLMSelectedFixtureResponse) (st : CreateBatchState),
      (storeMatchesLoop u p raw mkId ts fixtures st sels).reminders_created_count
        = st.reminders_created_count + validTriggerCount fixtures sels := by
  intro sels
  induction sels with
  | nil => intro st; rfl
  | cons m rest ih =>
    intro st
    cases hf : fixtures.find? (fun f => f.fixture_id == m.fixture_id) with
    | none =>
      simp only [storeMatchesLoop, hf, validTriggerCount, Nat.zero_add]
      exact ih st
    | some fx =>
      simp only [storeMatchesLoop, hf, validTriggerCount]
      rw [ih, storeTriggersLoop_created]
      omega

/-- Closed form for the batch counters: starting below the limit, after
`n` increments the open batch holds `(i + n) % 490` operations and one
full batch of 490 was committed for each multiple passed. -/
theorem batchIter_formula :
    ∀ (n i : Nat) (bs : List Nat), i < 490 →
      batchIter n (i, bs)
        = ((i + n) % 490, bs ++ List.replicate ((i + n) / 490) 490) := by
  intro n
  induction n with
  | zero =>
    intro i bs hi
    have h1 : (i + 0) % 490 = i := by omega
    have h2 : (i + 0) / 490 = 0 := by omega
    rw [h1, h2]
    simp [batchIter]
  | succ n ih =>
    intro i bs hi
    show batchIter n (batchStep (i, bs)) = _
    by_cases h : 490 ≤ i + 1
    · have hi489 : i = 489 := by omega
      subst hi489
      have hstep : batchStep (489, bs) = (0, bs ++ [490]) := by
        simp [batchStep]
      rw [hstep, ih 0 (bs ++ [490]) (by omega)]
      have hmod : (0 + n) % 490 = (489 + (n + 1)) % 490 := by omega
      have hdiv : (489 + (n + 1)) / 490 = 1 + (0 + n) / 490 := by omega
      rw [hmod, hdiv, List.replicate_add]
      simp [List.append_assoc]
    · have hstep : batchStep (i, bs) = (i + 1, bs) := by
        simp [batchStep, h]
      rw [hstep, ih (i + 1) bs (by omega)]
      have hmod : (i + 1 + n) % 490 = (i + (n + 1)) % 490 := by omega
      have hdiv : (i + 1 + n) / 490 = (i + (n + 1)) / 490 := by omega
      rw [hmod, hdiv]

/-- Closed form for `_store_new_reminders`: it creates one document per
valid trigger and commits full batches of 490 plus a final batch with
the remainder when there is one. -/
theorem store_new_reminders_batches (u : String)
    (sels : List LLMSelectedFixtureResponse) (fixtures : List FixtureDoc)
    (p raw : String) (mkId : Nat → String) (ts : Int) :
    (store_new_reminders u sels fixtures p raw mkId ts).reminders_created_count
      = validTriggerCount fixtures sels
    ∧ (store_new_reminders u sels fixtures p raw mkId ts).committed_batches
      = (if 0 < validTriggerCount fixtures sels % 490 then
          List.replicate (validTriggerCount fixtures sels / 490) 490
            ++ [validTriggerCount fixtures sels % 490]
        else List.replicate (validTriggerCount fixtures sels / 490) 490) := by
  have hc := storeMatchesLoop_counters u p raw mkId ts fixtures sels {}
  have hcr := storeMatchesLoop_created u p raw mkId ts fixtures sels {}
  rw [batchIter_formula (validTriggerCount fixtures sels) 0 [] (by omega)] at hc
  have hitems : (storeMatchesLoop u p raw mkId ts fixtures {} sels).items_in_create_batch
      = (0 + validTriggerCount fixtures sels) % 490 :=
    congrArg Prod.fst hc
  have hbatches : (storeMatchesLoop u p raw mkId ts fixtures {} sels).committed_batches
      = [] ++ List.replicate ((0 + validTriggerCount fixtures sels) / 490) 490 :=
    congrArg Prod.snd hc
  rw [List.nil_append] at hbatches
  constructor
  · show (store_new_reminders u sels fixtures p raw mkId ts).reminders_created_count = _
    unfold store_new_reminders
    by_cases h : 0 < (storeMatchesLoop u p raw mkId ts fixtures {} sels).items_in_create_batch
    · rw [if_pos h]
      simpa using hcr
    · rw [if_neg h]
      simpa using hcr
  · unfold store_new_reminders
    by_cases h : 0 < (storeMatchesLoop u p raw mkId ts fixtures {} sels).items_in_create_batch
    · rw [if_pos h]
      have h' : 0 < validTriggerCount fixtures sels % 490 := by
        rw [hitems] at h
        omega
      rw [if_pos h']
      show (storeMatchesLoop u p raw mkId ts fixtures {} sels).committed_batches
          ++ [(storeMatchesLoop u p raw mkId ts fixtures {} sels).items_in_create_batch]
        = _
      rw [hbatches, hitems]
      have : (0 + validTriggerCount fixtures sels) % 490
          = validTriggerCount fixtures sels % 490 := by omega
      rw [this]
      have : (0 + validTriggerCount fixtures sels) / 490
          = validTriggerCount fixtures sels / 490 := by omega
      rw [this]
    · rw [if_neg h]
      have h' : ¬ 0 < validTriggerCount fixtures sels % 490 := by
        rw [hitems] at h
        omega
      rw [if_neg h']
      rw [hbatches]
      have : (0 + validTriggerCount fixtures sels) / 490
          = validTriggerCount fixtures sels / 490 := by omega
      rw [this]

/-- The content of the documents created by the trigger loop does not
depend on the uuid supply or on the creation timestamp. -/
theorem storeTriggersLoop_docs_content (u p raw : String)
    (mkId mkId' : Nat → String) (ts ts' : Int)
    (m : LLMSelectedFixtureResponse) (fx : FixtureDoc) :
    ∀ (trigs : List LLMReminderTrigger) (st st' : CreateBatchState),
      st.docs.map content = st'.docs.map content →
      (storeTriggersLoop u p raw mkId ts m fx st trigs).docs.map content
        = (storeTriggersLoop u p raw mkId' ts' m fx st' trigs).docs.map content := by
  intro trigs
  induction trigs with
  | nil => intro st st' h; exact h
  | cons t rest ih =>
    intro st st' h
    simp only [storeTriggersLoop]
    apply ih
    dsimp only
    rw [List.map_append, List.map_append, h]
    rfl

/-- The content of the documents created by the creation loop does not
depend on the uuid supply or on the creation timestamp. -/
theorem storeMatchesLoop_docs_content (u p raw : String)
    (mkId mkId' : Nat → String) (ts ts' : Int) (fixtures : List FixtureDoc) :
    ∀ (sels : List LLMSelectedFixtureResponse) (st st' : CreateBatchState),
      st.docs.map content = st'.docs.map content →
      (storeMatchesLoop u p raw mkId ts fixtures st sels).docs.map content
        = (storeMatchesLoop u p raw mkId' ts' fixtures st' sels).docs.map content := by
  intro sels
  induction sels with
  | nil => intro st st' h; exact h
  | cons m rest ih =>
    intro st st' h
    cases hf : fixtures.find? (fun f => f.fixture_id == m.fixture_id) with
    | none =>
      simp only [storeMatchesLoop, hf]
      exact ih _ _ h
    | some fx =>
      simp only [storeMatchesLoop, hf]
      exact ih _ _ (storeTriggersLoop_docs_content u p raw mkId mkId' ts ts' m fx
        m.reminder_triggers st st' h)

/-- The final batch commit of `_store_new_reminders` does not change the
set of documents written. -/
theorem store_new_reminders_docs (u : String)
    (sels : List LLMSelectedFixtureResponse) (fixtures : List FixtureDoc)
    (p raw : String) (mkId : Nat → String) (ts : Int) :
    (store_new_reminders u sels fixtures p raw mkId ts).docs
      = (storeMatchesLoop u p raw mkId ts fixtures {} sels).docs := by
  unfold store_new_reminders
  by_cases h : 0 < (storeMatchesLoop u p raw mkId ts fixtures {} sels).items_in_create_batch
  · rw [if_pos h]
  · rw [if_neg h]

/-- Two generation passes over the same selections produce documents
with the same content, whatever uuids and timestamps they draw. -/
theorem store_new_reminders_content (u : String)
    (sels : List LLMSelectedFixtureResponse) (fixtures : List FixtureDoc)
    (p raw : String) (mkId mkId' : Nat → String) (ts ts' : Int) :
    (store_new_reminders u sels fixtures p raw mkId ts).docs.map content
      = (store_new_reminders u sels fixtures p raw mkId' ts').docs.map content := by
  rw [store_new_reminders_docs, store_new_reminders_docs]
  exact storeMatchesLoop_docs_content u p raw mkId mkId' ts ts' fixtures sels {} {} rfl

/-- Every document accumulated by the trigger loop satisfies a property
holding of the input documents and of every created document. -/
theorem storeTriggersLoop_docs_prop (u p raw : String) (mkId : Nat → String)
    (ts : Int) (m : LLMSelectedFixtureResponse) (fx : FixtureDoc)
    (P : ReminderDoc → Prop)
    (hdoc : ∀ (t : LLMReminderTrigger) (n : Nat),
      P (mkReminderDoc u m t fx p raw (mkId n) ts)) :
    ∀ (trigs : List LLMReminderTrigger) (st : CreateBatchState),
      (∀ r ∈ st.docs, P r) →
      ∀ r ∈ (storeTriggersLoop u p raw mkId ts m fx st trigs).docs, P r := by
  intro trigs
  induction trigs with
  | nil => intro st h; exact h
  | cons t rest ih =>
    intro st h
    simp only [storeTriggersLoop]
    apply ih
    intro r hr
    dsimp only at hr
    rcases List.mem_append.mp hr with hr | hr
    · exact h r hr
    · rw [List.mem_singleton.mp hr]
      exact hdoc t st.reminders_created_count

/-- Every document accumulated by the creation loop satisfies a property
holding of the input documents and of every document created from a
selection whose fixture id resolves. -/
theorem storeMatchesLoop_docs_prop (u p raw : String) (mkId : Nat → String)
    (ts : Int) (fixtures : List FixtureDoc) (P : ReminderDoc → Prop)
    (hdoc : ∀ (m : LLMSelectedFixtureResponse) (fx : FixtureDoc)
      (t : LLMReminderTrigger) (n : Nat),
      fixtures.find? (fun f => f.fixture_id == m.fixture_id) = some fx →
      P (mkReminderDoc u m t fx p raw (mkId n) ts)) :
    ∀ (sels : List LLMSelectedFixtureResponse) (st : CreateBatchState),
      (∀ r ∈ st.docs, P r) →
      ∀ r ∈ (storeMatchesLoop u p raw mkId ts fixtures st sels).docs, P r := by
  intro sels
  induction sels with
  | nil => intro st h; exact h
  | cons m rest ih =>
    intro st h
    cases hf : fixtures.find? (fun f => f.fixture_id == m.fixture_id) with
    | none =>
      simp only [storeMatchesLoop, hf]
      exact ih _ h
    | some fx =>
      simp only [storeMatchesLoop, hf]
      exact ih _ (storeTriggersLoop_docs_prop u p raw mkId ts m fx P
        (fun t n => hdoc m fx t n hf) m.reminder_triggers st h)

/-- Every document a generation pass writes belongs to the user, has
status `pending`, and references an in-window fixture id. -/
theorem store_new_reminders_docs_pending (u : String)
    (sels : List LLMSelectedFixtureResponse) (fixtures : List FixtureDoc)
    (p raw : String) (mkId : Nat → String) (ts : Int) :
    ∀ r ∈ (store_new_reminders u sels fixtures p raw mkId ts).docs,
      r.user_id = u ∧ r.status = "pending"
        ∧ r.fixture_id ∈ fixtures.map (fun f => f.fixture_id) := by
  rw [store_new_reminders_docs]
  apply storeMatchesLoop_docs_prop
  · intro m fx t n hf
    refine ⟨rfl, rfl, ?_⟩
    have hmem := List.mem_of_find?_eq_some hf
    have hbeq : fx.fixture_id = m.fixture_id := by
      simpa using List.find?_some hf
    show m.fixture_id ∈ _
    rw [← hbeq]
    exact List.mem_map.mpr ⟨fx, hmem, rfl⟩
  · intro r hr
    cases hr

/-- The deletion predicate holds of any pending reminder of the user
with an in-window fixture id. -/
theorem isOldPendingReminder_eq_true (u : String) (ids : List String)
    (r : ReminderDoc) (h1 : r.user_id = u) (h2 : r.status = "pending")
    (h3 : r.fixture_id ∈ ids) : isOldPendingReminder u ids r = true := by
  simp [isOldPendingReminder, h1, h2, h3]

/-- Filtering is idempotent. -/
theorem filter_idem (l : List ReminderDoc) (q : ReminderDoc → Bool) :
    (l.filter q).filter q = l.filter q := by
  rw [List.filter_filter]
  apply List.filter_congr
  intro a _
  cases q a <;> simp

/-- A successful generation pass with a non-empty selection clears the
user's old pending reminders for the in-window fixture ids and appends
the newly created documents. -/
theorem process_ok_eq (db : List ReminderDoc) (u : String)
    (fixtures : List FixtureDoc) (sels : List LLMSelectedFixtureResponse)
    (prompt raw : String) (mkId : Nat → String) (ts : Int)
    (hf : fixtures.isEmpty = false) (hs : sels.isEmpty = false) :
    process_fixtures_for_user db u fixtures (Except.ok sels) prompt raw mkId ts
      = (PassOutcome.ok
          (store_new_reminders u sels fixtures prompt raw mkId ts).reminders_created_count,
        clear_old_pending_reminders db u (fixtures.map (fun f => f.fixture_id))
          ++ (store_new_reminders u sels fixtures prompt raw mkId ts).docs) := by
  simp [process_fixtures_for_user, hf, hs]

/-- C1: idempotent regeneration.  Running the generation pass twice for
the same user, in-window fixture set and generation-service output
yields a reminder store with the same content (and hence cardinality) as
running it once, whatever fresh uuids and timestamps the second run
draws: the second run deletes exactly the pending reminders the first
run created for those fixtures and recreates documents of equal content. -/
theorem generator_idempotent_regeneration
    (db db1 db2 : List ReminderDoc) (u : String) (fixtures : List FixtureDoc)
    (sels : List LLMSelectedFixtureResponse) (prompt raw : String)
    (mkId mkId' : Nat → String) (ts ts' : Int) (o1 o2 : PassOutcome)
    (h1 : process_fixtures_for_user db u fixtures (Except.ok sels)
      prompt raw mkId ts = (o1, db1))
    (h2 : process_fixtures_for_user db1 u fixtures (Except.ok sels)
      prompt raw mkId' ts' = (o2, db2)) :
    db2.map content = db1.map content ∧ db2.length = db1.length := by
  suffices hmain : db2.map content = db1.map content by
    refine ⟨hmain, ?_⟩
    have hlen := congrArg List.length hmain
    simpa using hlen
  by_cases hf : fixtures.isEmpty
  · simp [process_fixtures_for_user, hf] at h1 h2
    rw [← h2.2]
  · rw [Bool.not_eq_true] at hf
    by_cases hs : sels.isEmpty
    · simp [process_fixtures_for_user, hf, hs] at h1 h2
      rw [← h2.2]
    · rw [Bool.not_eq_true] at hs
      rw [process_ok_eq db u fixtures sels prompt raw mkId ts hf hs] at h1
      rw [process_ok_eq db1 u fixtures sels prompt raw mkId' ts' hf hs] at h2
      injection h1 with _ e1
      injection h2 with _ e2
      subst e1
      subst e2
      simp only [clear_old_pending_reminders_eq_filter, List.filter_append,
        filter_idem]
      have hD1 : (store_new_reminders u sels fixtures prompt raw mkId ts).docs.filter
          (fun r => !isOldPendingReminder u (fixtures.map (fun f => f.fixture_id)) r)
          = [] := by
        apply List.filter_eq_nil_iff.mpr
        intro a ha
        obtain ⟨p1, p2, p3⟩ :=
          store_new_reminders_docs_pending u sels fixtures prompt raw mkId ts a ha
        simp [isOldPendingReminder_eq_true u _ a p1 p2 p3]
      rw [hD1, List.append_nil, List.map_append, List.map_append]
      congr 1
      exact store_new_reminders_content u sels fixtures prompt raw mkId' mkId ts' ts

/-- Witness for idempotent regeneration at a concrete one-fixture,
one-trigger input with differing uuid supplies and timestamps. -/
theorem generator_idempotent_regeneration_witness :
    (process_fixtures_for_user
        (process_fixtures_for_user [] "u1" [sampleFixture]
          (Except.ok [manyTriggerSelection 1]) "p" "r" (fun _ => "a") 0).2
        "u1" [sampleFixture] (Except.ok [manyTriggerSelection 1]) "p" "r"
        (fun _ => "b") 1).2.map content
      = (process_fixtures_for_user [] "u1" [sampleFixture]
          (Except.ok [manyTriggerSelection 1]) "p" "r" (fun _ => "a") 0).2.map
          content :=
  (generator_idempotent_regeneration [] _ _ "u1" [sampleFixture]
    [manyTriggerSelection 1] "p" "r" (fun _ => "a") (fun _ => "b") 0 1 _ _
    rfl rfl).1

/-- C6: a generation-service response that fails to parse raises the
hard error and aborts the pass with the reminder store unchanged — no
reminders are written and no pending reminders are deleted. -/
theorem generation_error_aborts_pass (db : List ReminderDoc) (u : String)
    (fixtures : List FixtureDoc) (msg : String) (prompt raw : String)
    (mkId : Nat → String) (ts : Int) (hf : fixtures.isEmpty = false) :
    process_fixtures_for_user db u fixtures (Except.error msg) prompt raw mkId ts
      = (PassOutcome.llmError msg, db) := by
  simp [process_fixtures_for_user, hf]

/-- Witness for the generation-failure case at a concrete input. -/
theorem generation_error_aborts_pass_witness :
    process_fixtures_for_user [sampleReminder] "u1" [sampleFixture]
        (Except.error "bad json") "p" "r" (fun _ => "id") 0
      = (PassOutcome.llmError "bad json", [sampleReminder]) :=
  generation_error_aborts_pass [sampleReminder] "u1" [sampleFixture]
    "bad json" "p" "r" (fun _ => "id") 0 (by decide)

/-- C10: a generation pass whose response parses to an empty selection
list performs no writes at all: nothing is deleted, nothing is created,
and the store is returned exactly as it was. -/
theorem empty_selection_leaves_store_unchanged (db : List ReminderDoc)
    (u : String) (fixtures : List FixtureDoc) (prompt raw : String)
    (mkId : Nat → String) (ts : Int) :
    process_fixtures_for_user db u fixtures (Except.ok []) prompt raw mkId ts
      = (PassOutcome.ok 0, db) := by
  by_cases hf : fixtures.isEmpty
  · simp [process_fixtures_for_user, hf]
  · rw [Bool.not_eq_true] at hf
    simp [process_fixtures_for_user, hf]

/-- C8: the in-window fixture-id list is split into inclusion-filter
chunks of at most 30 ids — 1, 2 and 3 chunks for 30, 31 and 61 ids
respectively — and the chunked deletion removes exactly the user's
pending reminders whose fixture id is in the id list. -/
theorem clear_chunking_correct (db : List ReminderDoc) (u : String)
    (ids : List String) :
    (∀ c ∈ fixtureIdChunks ids, c.length ≤ 30)
    ∧ clear_old_pending_reminders db u ids
        = db.filter (fun r => !isOldPendingReminder u ids r)
    ∧ (∀ r ∈ db, isOldPendingReminder u ids r = true →
        r ∉ clear_old_pending_reminders db u ids)
    ∧ (fixtureIdChunks (mkFixtureIds 30)).length = 1
    ∧ (fixtureIdChunks (mkFixtureIds 31)).length = 2
    ∧ (fixtureIdChunks (mkFixtureIds 61)).length = 3 := by
  refine ⟨?_, clear_old_pending_reminders_eq_filter db u ids, ?_,
    by decide, by decide, by decide⟩
  · intro c hc
    exact toChunksAux_size MAX_IN_QUERY_VALUES (by decide) ids.length ids
      le_rfl c hc
  · intro r _ hmatch hmem
    rw [clear_old_pending_reminders_eq_filter] at hmem
    have hpred := (List.mem_filter.mp hmem).2
    rw [hmatch] at hpred
    simp at hpred

/-- Witness for the chunked-deletion theorem at concrete inputs. -/
theorem clear_chunking_correct_witness :
    (mkFixtureIds 3).length ≤ 30
    ∧ sampleReminder ∉ clear_old_pending_reminders [sampleReminder] "u1" ["f1"] := by
  constructor
  · exact (clear_chunking_correct [] "u1" (mkFixtureIds 3)).1
      (mkFixtureIds 3) (by decide)
  · exact (clear_chunking_correct [sampleReminder] "u1" ["f1"]).2.2.1
      sampleReminder (by decide) (by decide)

/-- The valid-trigger count of the sample single-selection input. -/
theorem validTriggerCount_sample (n : Nat) :
    validTriggerCount [sampleFixture] [manyTriggerSelection n] = n := by
  simp [validTriggerCount, manyTriggerSelection, sampleFixture, List.find?]

/-- C9: write batches are committed with at most 490 operations each,
and creating exactly 490, 491 and 980 reminders commits exactly 1, 2
and 2 write batches respectively (for any uuid supply and timestamp). -/
theorem store_batch_commit_bounds :
    (∀ (u : String) (sels : List LLMSelectedFixtureResponse)
        (fixtures : List FixtureDoc) (p raw : String) (mkId : Nat → String)
        (ts : Int),
      ∀ b ∈ (store_new_reminders u sels fixtures p raw mkId ts).committed_batches,
        b ≤ 490)
    ∧ (∀ (mkId : Nat → String) (ts : Int),
        (store_new_reminders "u" [manyTriggerSelection 490] [sampleFixture]
          "p" "r" mkId ts).reminders_created_count = 490
        ∧ (store_new_reminders "u" [manyTriggerSelection 490] [sampleFixture]
            "p" "r" mkId ts).committed_batches.length = 1)
    ∧ (∀ (mkId : Nat → String) (ts : Int),
        (store_new_reminders "u" [manyTriggerSelection 491] [sampleFixture]
          "p" "r" mkId ts).reminders_created_count = 491
        ∧ (store_new_reminders "u" [manyTriggerSelection 491] [sampleFixture]
            "p" "r" mkId ts).committed_batches.length = 2)
    ∧ (∀ (mkId : Nat → String) (ts : Int),
        (store_new_reminders "u" [manyTriggerSelection 980] [sampleFixture]
          "p" "r" mkId ts).reminders_created_count = 980
        ∧ (store_new_reminders "u" [manyTriggerSelection 980] [sampleFixture]
            "p" "r" mkId ts).committed_batches.length = 2) := by
  refine ⟨?_, ?_, ?_, ?_⟩
  · intro u sels fixtures p raw mkId ts b hb
    obtain ⟨-, hbatches⟩ := store_new_reminders_batches u sels fixtures p raw mkId ts
    rw [hbatches] at hb
    by_cases h : 0 < validTriggerCount fixtures sels % 490
    · rw [if_pos h] at hb
      rcases List.mem_append.mp hb with hb | hb
      · rw [List.eq_of_mem_replicate hb]
      · rw [List.mem_singleton.mp hb]
        omega
    · rw [if_neg h] at hb
      rw [List.eq_of_mem_replicate hb]
  · intro mkId ts
    obtain ⟨hc, hb⟩ := store_new_reminders_batches "u" [manyTriggerSelection 490]
      [sampleFixture] "p" "r" mkId ts
    rw [validTriggerCount_sample] at hc hb
    exact ⟨hc, by rw [hb]; simp⟩
  · intro mkId ts
    obtain ⟨hc, hb⟩ := store_new_reminders_batches "u" [manyTriggerSelection 491]
      [sampleFixture] "p" "r" mkId ts
    rw [validTriggerCount_sample] at hc hb
    exact ⟨hc, by rw [hb]; simp⟩
  · intro mkId ts
    obtain ⟨hc, hb⟩ := store_new_reminders_batches "u" [manyTriggerSelection 980]
      [sampleFixture] "p" "r" mkId ts
    rw [validTriggerCount_sample] at hc hb
    exact ⟨hc, by rw [hb]; simp⟩

/-- Witness for the write-batch bounds at a concrete one-reminder input. -/
theorem store_batch_commit_bounds_witness : (1 : Nat) ≤ 490 :=
  store_batch_commit_bounds.1 "u" [manyTriggerSelection 1] [sampleFixture]
    "p" "r" (fun _ => "id") 0 1 (by decide)

/-- C7: scheduler state machine with per-item failure isolation.  With
a configured project id, every selected reminder yields exactly one
status transition — `failed_user_not_found` when the owning user is
missing, `failed_invalid_user_data` when the user record fails
validation, `failed_unknown_mode` when the delivery mode has no topic,
`queued_for_notification` (recording the target topic) when the publish
succeeds, `failed_queueing` when it fails — and the batch splits
pointwise, so no per-reminder failure affects the processing of the
other reminders. -/
theorem scheduler_state_machine (env : SchedulerEnv)
    (hproj : env.project_id_configured = true) :
    (∀ rs1 rs2 : List ReminderDoc,
      process_due_reminders_batch env (rs1 ++ rs2)
        = process_due_reminders_batch env rs1 ++ process_due_reminders_batch env rs2)
    ∧ (∀ rs : List ReminderDoc,
        (process_due_reminders_batch env rs).length = rs.length)
    ∧ (∀ r : ReminderDoc,
        (env.users r.user_id = .notFound →
          process_one_due_reminder env r
            = ⟨r.reminder_id, "failed_user_not_found", none⟩)
        ∧ (∀ e, env.users r.user_id = .invalidData e →
          process_one_due_reminder env r
            = ⟨r.reminder_id, "failed_invalid_user_data", none⟩)
        ∧ (∀ email phone, env.users r.user_id = .valid email phone →
            target_topic_for_mode env r.reminder_mode = none →
          process_one_due_reminder env r
            = ⟨r.reminder_id, "failed_unknown_mode", none⟩)
        ∧ (∀ email phone topic, env.users r.user_id = .valid email phone →
            target_topic_for_mode env r.reminder_mode = some topic →
            env.publish_ok (build_notification_request r email phone) = true →
          process_one_due_reminder env r
            = ⟨r.reminder_id, "queued_for_notification", some topic⟩)
        ∧ (∀ email phone topic, env.users r.user_id = .valid email phone →
            target_topic_for_mode env r.reminder_mode = some topic →
            env.publish_ok (build_notification_request r email phone) = false →
          process_one_due_reminder env r
            = ⟨r.reminder_id, "failed_queueing", none⟩)) := by
  refine ⟨?_, ?_, ?_⟩
  · intro rs1 rs2
    exact List.map_append _ rs1 rs2
  · intro rs
    exact List.length_map rs _
  · intro r
    refine ⟨?_, ?_, ?_, ?_, ?_⟩
    · intro h
      simp [process_one_due_reminder, h]
    · intro e h
      simp [process_one_due_reminder, h]
    · intro email phone h htopic
      simp [process_one_due_reminder, h, htopic]
    · intro email phone topic h htopic hpub
      simp [process_one_due_reminder, h, htopic, hproj, hpub]
    · intro email phone topic h htopic hpub
      simp [process_one_due_reminder, h, htopic, hproj, hpub]

/-- A scheduler environment for the state-machine witness: one valid
user, both topics configured, every publish succeeding. -/
def sampleSchedulerEnv : SchedulerEnv :=
  { users := fun _ => .valid "user@example.com" none
    email_topic_id := "email-notifications-topic"
    phone_mock_topic_id := "phone-mock-notifications-topic"
    project_id_configured := true
    publish_ok := fun _ => true }

/-- Witness for the scheduler state machine: the sample pending email
reminder is queued and the target topic is recorded. -/
theorem scheduler_state_machine_witness :
    process_one_due_reminder sampleSchedulerEnv sampleReminder
      = ⟨"r1", "queued_for_notification", some "email-notifications-topic"⟩ :=
  ((scheduler_state_machine sampleSchedulerEnv rfl).2.2 sampleReminder).2.2.2.1
    "user@example.com" none "email-notifications-topic" rfl rfl rfl

/-- C5: the channel sender publishes exactly one status event carrying
the final outcome string, on every execution path — send succeeding,
send returning failure, or an internal exception at any step (the
publish itself requires the publisher client and status-topic
configuration to be present). -/
theorem sender_always_publishes (steps : SenderSteps)
    (payload : PubSubMessageData)
    (hconf : steps.status_publish_configured = true) :
    (process_single_notification steps payload).published.length = 1
    ∧ (∀ ev ∈ (process_single_notification steps payload).published,
        ev.final_notification_status
          = (process_single_notification steps payload).final_send_status_msg
        ∧ ev.original_reminder_id = payload.original_reminder_id)
    ∧ (∀ (n : Nat) (ok : Bool) (msg : String),
        steps.initial_log = .ok n → steps.get_sender = .ok () →
        steps.send = .ok (ok, msg) → steps.update_log = .ok () →
        (process_single_notification steps payload).published
          = [mkStatusEvent payload msg none])
    ∧ (∀ e, steps.initial_log = .error e →
        (process_single_notification steps payload).published
          = [mkStatusEvent payload (exc_result e).1 (exc_result e).2]) := by
  refine ⟨?_, ?_, ?_, ?_⟩
  · simp [process_single_notification, publish_status_update, hconf]
  · intro ev hev
    simp [process_single_notification, publish_status_update, hconf] at hev
    subst hev
    exact ⟨rfl, rfl⟩
  · intro n ok msg h1 h2 h3 h4
    simp [process_single_notification, publish_status_update, hconf,
      h1, h2, h3, h4]
  · intro e h1
    simp [process_single_notification, publish_status_update, hconf, h1]

/-- A concrete dispatch payload with an email address, for the sender
witness. -/
def samplePayload : PubSubMessageData :=
  { original_reminder_id := "r1"
    user_id := "u1"
    fixture_id := "f1"
    contact_email := some "user@example.com"
    contact_phone := none
    message_content := "go"
    reminder_mode := "email"
    kickoff_time_utc := none }

/-- Concrete sender steps for the witness: every step succeeds and the
mock email sender reports `sent_mock_email`. -/
def sampleSenderSteps : SenderSteps :=
  { initial_log := .ok 1
    get_sender := .ok ()
    send := .ok (mock_email_send samplePayload)
    update_log := .ok ()
    status_publish_configured := true }

/-- Witness for the always-publish theorem: on the all-success path the
single published event carries the mock sender's outcome. -/
theorem sender_always_publishes_witness :
    (process_single_notification sampleSenderSteps samplePayload).published
      = [mkStatusEvent samplePayload "sent_mock_email" none] :=
  (sender_always_publishes sampleSenderSteps samplePayload rfl).2.2.1
    1 true "sent_mock_email" rfl rfl rfl rfl

end FixtureScout
